import Mathlib

set_option maxRecDepth 4000

/-!
Verification of the ProjectPilot backend (src/server.js, with the earlier
revision in src/unnamed/part_000) against its specification.

Strings are embedded as lists of characters (`Str`).  External services
(the completion API, the speech-synthesis API, the CSV parsing library)
are modelled by outcome parameters fed to the handlers, matching the
points where the source awaits a network or library call.  Each handler
returns the HTTP response it produces together with the payload it sent
to the completion service (`none` when no completion call was made).
-/

abbrev Str := List Char

/-- JS `String.prototype.trim`: strip leading and trailing whitespace. -/
def isJsWhitespace (c : Char) : Bool :=
  c == ' ' || c == '\t' || c == '\n' || c == '\r' || c == '\x0b' || c == '\x0c'

/-- Model of `s.trim()` on a character-list string. -/
def jsTrim (s : Str) : Str :=
  ((s.dropWhile isJsWhitespace).reverse.dropWhile isJsWhitespace).reverse

/-- One byte-triple step of Node `Buffer.prototype.toString("base64")`. -/
def base64Table : Str :=
  ("ABCDEFGHIJKLMNOPQRSTUVWXYZabcdefghijklmnopqrstuvwxyz0123456789+/").data

def base64Digit (n : Nat) : Char := base64Table.getD n 'A'

/-- Standard base64 encoding of a byte list (Node `buffer.toString("base64")`). -/
def base64Encode : List Nat → Str
  | [] => []
  | a :: [] =>
      [base64Digit (a / 4), base64Digit (a % 4 * 16), '=', '=']
  | a :: b :: [] =>
      [base64Digit (a / 4), base64Digit (a % 4 * 16 + b / 16),
       base64Digit (b % 16 * 4), '=']
  | a :: b :: c :: rest =>
      base64Digit (a / 4) :: base64Digit (a % 4 * 16 + b / 16) ::
      base64Digit (b % 16 * 4 + c / 64) :: base64Digit (c % 64) ::
      base64Encode rest

/-- Process configuration loaded at startup (src/server.js lines 16-18).
`OPENAI_API_KEY` is the raw environment value (`[]` models both an unset
variable and the empty string, which are equally falsy in the guard);
the ElevenLabs fields hold the already-trimmed values. -/
structure Config where
  OPENAI_API_KEY : Str
  ELEVENLABS_API_KEY : Str
  ELEVENLABS_VOICE_ID : Str
deriving DecidableEq

/-- A JSON value found in a request-body field: a string, or anything else. -/
inductive JVal
  | str (s : Str)
  | nonString
deriving DecidableEq

/-- The parsed JSON body of a chat request: the fields the handlers look
at (`message`) plus the `text` field named by the spec as an alias. -/
structure ChatBody where
  message : Option JVal
  text : Option JVal
deriving DecidableEq

/-- One role-tagged entry of the messages array sent to the completion API. -/
structure ChatMsg where
  role : Str
  content : Str
deriving DecidableEq

/-- The JSON payload of a completion-API call. -/
structure CompletionRequest where
  model : Str
  temperature : ℚ
  messages : List ChatMsg
deriving DecidableEq

/-- Outcome of the awaited completion-API fetch: a non-ok response with
its error text, or an ok response whose parsed JSON yields an optional
trimmed-content string at `choices[0].message.content`. -/
inductive CompletionOutcome
  | failure (errorText : Str)
  | success (content : Option Str)
deriving DecidableEq

/-- Outcome of the awaited speech-synthesis fetch: ok with audio bytes,
a non-ok HTTP status, or a thrown exception. -/
inductive TtsOutcome
  | ok (audio : List Nat)
  | httpError
  | exn
deriving DecidableEq

/-- A JSON response body produced by a handler. -/
inductive RespBody
  | chat (reply : Str) (audioBase64 : Option Str)
  | err (error : Str) (detail : Option Str)
  | analysis (analysis : Str)
deriving DecidableEq

/-- An HTTP response: status code plus JSON body. -/
structure HttpResp where
  status : Nat
  body : RespBody
deriving DecidableEq

def greetingReply : Str := ("Hi, I’m Aero! Tell me about your project.").data

def fallbackReply : Str := ("I’m not sure how to respond to that.").data

def missingKeyError : Str := ("Missing OPENAI_API_KEY").data

def openaiFailedError : Str := ("OpenAI API failed").data

def chatModel : Str := ("gpt-4.1-mini").data

/-- The chat system prompt (src/server.js lines 73-78, after `.trim()`). -/
def chatSystemPrompt : Str :=
  ("You are Aero, an expert project management coach.\nBe clear, helpful, friendly, and provide practical advice.\nUse bullet points and short paragraphs.\nWhen helpful, generate small simple schedule tables in markdown.").data

/-- The raw `message` field of the body when it is present and a string
(src/server.js line 62: the `typeof` check), before trimming. -/
def rawMessage (body : Option ChatBody) : Option Str :=
  match body with
  | some b =>
    match b.message with
    | some (JVal.str s) => some s
    | _ => none
  | none => none

/-- The `message` local of the chat handler (src/server.js lines 61-64):
the trimmed `message` field when present and a string, else empty. -/
def extractMessage (body : Option ChatBody) : Str :=
  match rawMessage body with
  | some s => jsTrim s
  | none => []

/-- Reply extraction (src/server.js lines 104-105): the trimmed content
when present and nonempty, else the fixed fallback string. -/
def replyOf (content : Option Str) : Str :=
  match content with
  | some c => if jsTrim c = [] then fallbackReply else jsTrim c
  | none => fallbackReply

/-- The POST /api/chat handler (src/server.js lines 55-148).  Returns the
HTTP response and the payload sent to the completion service (`none`
when the handler returned before making that call). -/
def chatHandler (cfg : Config) (body : Option ChatBody)
    (completion : CompletionOutcome) (tts : TtsOutcome) :
    HttpResp × Option CompletionRequest :=
  if cfg.OPENAI_API_KEY = [] then
    (⟨500, RespBody.err missingKeyError none⟩, none)
  else
    let message := extractMessage body
    if message = [] then
      (⟨200, RespBody.chat greetingReply none⟩, none)
    else
      let payload : CompletionRequest :=
        ⟨chatModel, (0.4 : ℚ),
         [⟨("system").data, chatSystemPrompt⟩, ⟨("user").data, message⟩]⟩
      match completion with
      | CompletionOutcome.failure t =>
          (⟨500, RespBody.err openaiFailedError (some t)⟩, some payload)
      | CompletionOutcome.success content =>
          let reply := replyOf content
          let audioBase64 : Option Str :=
            if cfg.ELEVENLABS_API_KEY ≠ [] ∧ cfg.ELEVENLABS_VOICE_ID ≠ [] then
              match tts with
              | TtsOutcome.ok audio => some (base64Encode audio)
              | _ => none
            else none
          (⟨200, RespBody.chat reply audioBase64⟩, some payload)

/-! ### Cross-origin gate

Both revisions register the cors middleware before every route, so an
origin the callback rejects is answered by the middleware and the route
handler never runs.  `gateExact` is the current revision (src/server.js
lines 33-41, exact list membership); `gateV0` is the earlier revision
(src/unnamed/part_000 lines 19-28, starts-with matching). -/

/-- Allow-list of src/server.js lines 21-28. -/
def ALLOWED_ORIGINS : List Str :=
  [("https://projectpilot.ai").data,
   ("https://www.projectpilot.ai").data,
   ("https://projectpilot-frontend.onrender.com").data,
   ("https://renaeliving.wixsite.com").data,
   ("https://renaeliving-wixsite-com.filesusr.com").data,
   ("https://projectpilot-ai.filesusr.com").data]

/-- Allow-list of src/unnamed/part_000 lines 10-17. -/
def ALLOWED_ORIGINS_V0 : List Str :=
  [("https://projectpilot.ai").data,
   ("https://www.projectpilot.ai").data,
   ("https://projectpilot-ai.filesusr.com").data,
   ("https://www-projectpilot-ai.filesusr.com").data,
   ("https://renaeliving.wixsite.com").data,
   ("https://renaeliving-wixsite-com.filesusr.com").data]

/-- JS `origin.startsWith(allowed)`: `listStarts allowed origin`. -/
def listStarts : Str → Str → Bool
  | [], _ => true
  | _ :: _, [] => false
  | p :: ps, c :: cs => p == c && listStarts ps cs

/-- The cors origin callback of src/server.js lines 35-39: no Origin
header is accepted, otherwise exact membership in the allow-list. -/
def corsAcceptExact (origin : Option Str) : Bool :=
  match origin with
  | none => true
  | some o => ALLOWED_ORIGINS.contains o

/-- The cors origin callback of src/unnamed/part_000 lines 21-26: no
Origin header is accepted, otherwise some allow-list entry must be a
starting segment of the origin. -/
def corsAcceptV0 (origin : Option Str) : Bool :=
  match origin with
  | none => true
  | some o => ALLOWED_ORIGINS_V0.any (fun allowed => listStarts allowed o)

/-- Result of the middleware stage: either the cors middleware rejected
the request, or the route handler ran and produced a response. -/
inductive GateOutcome
  | corsRejected (message : Str)
  | handled (resp : HttpResp)
deriving DecidableEq

/-- Request pipeline of src/server.js: cors check, then the route
handler.  The second component records whether handler logic ran. -/
def gateExact (origin : Option Str) (handlerResp : HttpResp) :
    GateOutcome × Bool :=
  if corsAcceptExact origin then (GateOutcome.handled handlerResp, true)
  else
    (GateOutcome.corsRejected (("CORS blocked: ").data ++ origin.getD []),
     false)

/-- Request pipeline of src/unnamed/part_000: cors check, then handler. -/
def gateV0 (origin : Option Str) (handlerResp : HttpResp) :
    GateOutcome × Bool :=
  if corsAcceptV0 origin then (GateOutcome.handled handlerResp, true)
  else
    (GateOutcome.corsRejected
       (("Not allowed by CORS: ").data ++ origin.getD []),
     false)

/-! ### Schedule upload endpoint (src/server.js lines 160-259) -/

/-- One record produced by csv-parse with the columns option: an ordered
association of column-header strings to cell strings. -/
abbrev CsvRow := List (Str × Str)

/-- Outcome of the csv-parse library call: a thrown parse error, or the
list of data records. -/
inductive CsvParseOutcome
  | parseError
  | parsed (records : List CsvRow)
deriving DecidableEq

def isNewlineChar (c : Char) : Bool := c == '\n' || c == '\r'

/-- The first `.replace` of src/server.js line 199: each maximal run of
newline and carriage-return characters becomes one space.  The boolean
argument records whether the previous character belonged to a run whose
space was already emitted. -/
def collapseNewlineRuns : Bool → Str → Str
  | _, [] => []
  | inRun, c :: cs =>
    if isNewlineChar c then
      if inRun then collapseNewlineRuns true cs
      else ' ' :: collapseNewlineRuns true cs
    else
      c :: collapseNewlineRuns false cs

/-- The second `.replace` of src/server.js line 200: every comma becomes
a semicolon. -/
def commasToSemicolons (s : Str) : Str :=
  s.map (fun c => if c == ',' then ';' else c)

/-- The whole cell transformation of src/server.js lines 197-200. -/
def sanitizeCell (s : Str) : Str :=
  commasToSemicolons (collapseNewlineRuns false s)

/-- Modelled from the spec: each maximal run of newline and
carriage-return characters is collapsed to a single space (the regex
replacement the spec describes), written by direct recursion on runs,
to be compared with the source-side `collapseNewlineRuns`. -/
def specCollapse : Str → Str
  | [] => []
  | c :: [] => if isNewlineChar c then [' '] else [c]
  | c :: d :: cs =>
    if isNewlineChar c then
      if isNewlineChar d then specCollapse (d :: cs)
      else ' ' :: specCollapse (d :: cs)
    else c :: specCollapse (d :: cs)

/-- JS `(row[h] ?? "").toString()`: the cell under header `h`, defaulting
to the empty string. -/
def cellOf (row : CsvRow) (h : Str) : Str := (row.lookup h).getD []

/-- One rendered data line (src/server.js lines 195-202): the sanitized
cells in header order, joined by commas. -/
def renderRow (headers : List Str) (row : CsvRow) : Str :=
  List.intercalate ([',']) (headers.map (fun h => sanitizeCell (cellOf row h)))

def MAX_ROWS : Nat := 120

/-- The compact CSV text of src/server.js lines 188-204: keep the first
`MAX_ROWS` records, take the column order from the first kept record,
and join the header line and the rendered rows with newlines. -/
def compactCsvOf (records : List CsvRow) : Str :=
  let trimmed := records.take MAX_ROWS
  let headers := (trimmed.headD []).map Prod.fst
  let headerLine := List.intercalate ([',']) headers
  let rows := trimmed.map (renderRow headers)
  List.intercalate (['\n']) (headerLine :: rows)

def analysisFallback : Str := ("I could not generate an analysis.").data

def noFileError : Str := ("No file uploaded.").data

def csvParseFailedError : Str :=
  ("Could not parse CSV. Ensure it\x27s a valid exported schedule.").data

def noDataError : Str := ("CSV contains no data.").data

def scheduleUpstreamError : Str := ("OpenAI schedule analysis error").data

/-- The upload system prompt (src/server.js lines 207-216, after trim). -/
def uploadSystemPrompt : Str :=
  ("You are Aero, an expert PM coach.\nYou will be given a project schedule in CSV form.\n\nReturn:\n1. A 2–4 sentence overall assessment.\n2. A markdown table with the top 8–12 risks:\n\n| ID | Risk | Why it matters | Suggested mitigation | Likelihood | Impact |").data

/-- The upload user prompt (src/server.js lines 218-222): the template
literal around the compact CSV, trimmed. -/
def uploadUserPrompt (compactCsv : Str) : Str :=
  jsTrim (("\nHere is the project schedule (CSV):\n\n").data ++ compactCsv
            ++ ("\n").data)

/-- Analysis extraction (src/server.js lines 251-252). -/
def analysisOf (content : Option Str) : Str :=
  match content with
  | some c => if jsTrim c = [] then analysisFallback else jsTrim c
  | none => analysisFallback

/-- The POST /api/upload-schedule handler (src/server.js lines 160-259).
`filePresent` models `req.file`; the csv-parse call and the completion
fetch are modelled by their outcomes.  Returns the HTTP response and the
payload sent to the completion service (`none` when no call was made). -/
def uploadHandler (cfg : Config) (filePresent : Bool)
    (parseResult : CsvParseOutcome) (completion : CompletionOutcome) :
    HttpResp × Option CompletionRequest :=
  if !filePresent then
    (⟨400, RespBody.err noFileError none⟩, none)
  else if cfg.OPENAI_API_KEY = [] then
    (⟨500, RespBody.err missingKeyError none⟩, none)
  else
    match parseResult with
    | CsvParseOutcome.parseError =>
        (⟨400, RespBody.err csvParseFailedError none⟩, none)
    | CsvParseOutcome.parsed records =>
      if records.isEmpty then
        (⟨400, RespBody.err noDataError none⟩, none)
      else
        let compactCsv := compactCsvOf records
        let payload : CompletionRequest :=
          ⟨chatModel, (0.3 : ℚ),
           [⟨("system").data, uploadSystemPrompt⟩,
            ⟨("user").data, uploadUserPrompt compactCsv⟩]⟩
        match completion with
        | CompletionOutcome.failure t =>
            (⟨500, RespBody.err scheduleUpstreamError (some t)⟩, some payload)
        | CompletionOutcome.success content =>
            (⟨200, RespBody.analysis (analysisOf content)⟩, some payload)

/-- Split a character list at every occurrence of `sep` (the notion of
line, and of comma-delimited field, used by the theorems below). -/
def splitOnChar (sep : Char) (s : Str) : List Str :=
  s.splitOnP (fun c => c == sep)

/-! ### Test fixtures for witnesses and counterexamples -/

def cfgFull : Config := ⟨("k").data, ("ek").data, ("ev").data⟩

def cfgNoKey : Config := ⟨[], ("ek").data, ("ev").data⟩

def chatBodyHello : Option ChatBody :=
  some ⟨some (JVal.str (("Hello").data)), none⟩

def chatBodyPadded : Option ChatBody :=
  some ⟨some (JVal.str (("  Hello  ").data)), none⟩

def badHeader : Str := ('a' :: '\n' :: 'b' :: [])

def badRecords : List CsvRow := List.replicate 200 [(badHeader, ("x").data)]

def goodRecords : List CsvRow :=
  List.replicate 200 [(("Task").data, ("x").data)]

def demoHeaders : List Str := [("a").data]

def demoRow : CsvRow := [(("a").data, ("x,y\n\nz").data)]

def evilOrigin : Str := ("https://evil.example").data

def okResp : HttpResp := ⟨200, RespBody.chat greetingReply none⟩

/-! ### Helper lemmas -/

/-- Joint induction relating the accumulator-style collapse of the
source to the run-recursion `specCollapse`. -/
theorem collapse_and_run (s : Str) :
    collapseNewlineRuns false s = specCollapse s ∧
    ∀ x : Char, isNewlineChar x = true →
      ' ' :: collapseNewlineRuns true s = specCollapse (x :: s) := by
  induction s with
  | nil =>
    refine ⟨rfl, ?_⟩
    intro x hx
    simp [collapseNewlineRuns, specCollapse, hx]
  | cons c t ih =>
    constructor
    · by_cases hc : isNewlineChar c = true
      · simpa [collapseNewlineRuns, hc] using (ih.2 c hc).symm ▸ rfl
      · cases t with
        | nil => simp [collapseNewlineRuns, specCollapse, hc]
        | cons d t' =>
          simp only [collapseNewlineRuns, specCollapse, hc]
          simpa [collapseNewlineRuns] using ih.1
    · intro x hx
      by_cases hc : isNewlineChar c = true
      · simp only [collapseNewlineRuns, specCollapse, hx, hc, if_pos]
        exact ih.2 c hc
      · simp only [collapseNewlineRuns, specCollapse, hx, hc]
        rw [ih.1]
        cases t <;> simp [specCollapse, hc]

/-- The source's newline collapse equals the run-recursion form. -/
theorem collapseNewlineRuns_eq_specCollapse (s : Str) :
    collapseNewlineRuns false s = specCollapse s :=
  (collapse_and_run s).1

/-- Collapsing leaves no newline or carriage-return character. -/
theorem not_newline_mem_collapse (b : Bool) (s : Str) :
    ∀ c ∈ collapseNewlineRuns b s, isNewlineChar c = false := by
  induction s generalizing b with
  | nil => intro c hc; simp [collapseNewlineRuns] at hc
  | cons d t ih =>
    intro c hc
    by_cases hd : isNewlineChar d = true
    · simp only [collapseNewlineRuns, hd, if_pos] at hc
      cases b with
      | true => exact ih true c hc
      | false =>
        rcases (List.mem_cons).1 hc with h | h
        · subst h; decide
        · exact ih true c h
    · simp only [collapseNewlineRuns, hd] at hc
      rcases (List.mem_cons).1 hc with h | h
      · subst h; simpa using hd
      · exact ih false c h

/-- A sanitized cell contains no newline or carriage-return character. -/
theorem not_newline_mem_sanitizeCell (s : Str) :
    ∀ c ∈ sanitizeCell s, isNewlineChar c = false := by
  intro c hc
  simp only [sanitizeCell, commasToSemicolons, List.mem_map] at hc
  obtain ⟨x, hx, hcx⟩ := hc
  have hnl := not_newline_mem_collapse false s x hx
  by_cases h : x = ','
  · subst h; simp at hcx; subst hcx; decide
  · simp [h] at hcx; subst hcx; exact hnl

/-- A sanitized cell contains no comma. -/
theorem not_comma_mem_sanitizeCell (s : Str) :
    ∀ c ∈ sanitizeCell s, (c == ',') = false := by
  intro c hc
  simp only [sanitizeCell, commasToSemicolons, List.mem_map] at hc
  obtain ⟨x, hx, hcx⟩ := hc
  by_cases h : x = ','
  · subst h; simp at hcx; subst hcx; decide
  · simp [h] at hcx; subst hcx; simpa using h

/-- Unfolding of a single-separator intercalation over two or more
parts. -/
theorem intercalate_cons₂ (sep : Char) (x y : Str) (zs : List Str) :
    List.intercalate [sep] (x :: y :: zs) =
      x ++ sep :: List.intercalate [sep] (y :: zs) := by
  simp [List.intercalate]

/-- Splitting at a separator recovers the parts of an intercalation when
no part contains a character the split predicate accepts. -/
theorem splitOnP_intercalate_parts (p : Char → Bool) (sep : Char)
    (hsep : p sep = true) :
    ∀ (parts : List Str), parts ≠ [] →
      (∀ l ∈ parts, ∀ c ∈ l, p c = false) →
      (List.intercalate [sep] parts).splitOnP p = parts
  | [], h, _ => absurd rfl h
  | [x], _, hp => by
      simp only [List.intercalate, List.intersperse_single, List.flatten,
        List.append_nil]
      refine List.splitOnP_eq_single p x ?_
      intro c hc
      simp [hp x (by simp) c hc]
  | x :: y :: zs, _, hp => by
      rw [intercalate_cons₂]
      rw [List.splitOnP_first p x
            (fun c hc => by simp [hp x (by simp) c hc]) sep hsep
            (List.intercalate [sep] (y :: zs))]
      rw [splitOnP_intercalate_parts p sep hsep (y :: zs) (by simp)
            (fun l hl c hc => hp l (List.mem_cons_of_mem x hl) c hc)]

/-- A character of a single-separator intercalation is the separator or
a character of one of the parts. -/
theorem mem_intercalate_parts (sep : Char) (parts : List Str) :
    ∀ c ∈ List.intercalate [sep] parts, c = sep ∨ ∃ l ∈ parts, c ∈ l := by
  induction parts with
  | nil => intro c hc; simp [List.intercalate] at hc
  | cons x rest ih =>
    intro c hc
    cases rest with
    | nil =>
      simp only [List.intercalate, List.intersperse_single,
        List.flatten] at hc
      right; exact ⟨x, by simp, by simpa using hc⟩
    | cons y zs =>
      rw [intercalate_cons₂] at hc
      rcases List.mem_append.1 hc with h | h
      · right; exact ⟨x, by simp, h⟩
      · rcases List.mem_cons.1 h with h | h
        · left; exact h
        · rcases ih c h with h | ⟨l, hl, hcl⟩
          · left; exact h
          · right; exact ⟨l, List.mem_cons_of_mem x hl, hcl⟩

/-- A character that is neither newline nor carriage return is not
accepted by the newline split predicate. -/
theorem beq_newline_false_of_not_newline (c : Char)
    (h : isNewlineChar c = false) : (c == '\n') = false := by
  simp only [isNewlineChar, Bool.or_eq_false_iff] at h
  exact h.1

/-! ### Claim theorems -/

/-- Claim C2: for every chat request whose message field is absent, not a
string, or whitespace-only after trimming, and with the completion
credential configured, /api/chat answers status 200 with the fixed
greeting reply and audioBase64 null, makes no completion call, and does
so regardless of the synthesis configuration and synthesis outcome. -/
theorem chat_empty_message_greeting (cfg : Config) (body : Option ChatBody)
    (completion : CompletionOutcome) (tts : TtsOutcome)
    (hkey : cfg.OPENAI_API_KEY ≠ [])
    (hempty : ∀ s, rawMessage body = some s → jsTrim s = []) :
    chatHandler cfg body completion tts =
      (⟨200, RespBody.chat greetingReply none⟩, none) := by
  have hm : extractMessage body = [] := by
    unfold extractMessage
    cases h : rawMessage body with
    | none => rfl
    | some s => simpa using hempty s h
  simp [chatHandler, hkey, hm]

/-- Witness for C2: a request with no body at all, a fully configured
synthesis service, and a successful synthesis outcome still yields the
greeting with no audio and no completion call. -/
theorem chat_empty_message_greeting_witness :
    chatHandler cfgFull none (CompletionOutcome.failure (("boom").data))
        (TtsOutcome.ok [1, 2, 3]) =
      (⟨200, RespBody.chat greetingReply none⟩, none) :=
  chat_empty_message_greeting cfgFull none
    (CompletionOutcome.failure (("boom").data)) (TtsOutcome.ok [1, 2, 3])
    (by decide) (fun s hs => Option.noConfusion hs)

/-- Claim C10: the missing-credential guard runs before the empty-message
short-circuit: whenever OPENAI_API_KEY is absent (or empty), every chat
request — including an empty or whitespace-only one — is answered with
status 500 and the missing-key error, and the greeting is never
returned. -/
theorem chat_missing_key_guard (cfg : Config) (body : Option ChatBody)
    (completion : CompletionOutcome) (tts : TtsOutcome)
    (hkey : cfg.OPENAI_API_KEY = []) :
    chatHandler cfg body completion tts =
      (⟨500, RespBody.err missingKeyError none⟩, none) ∧
    ∀ a, (chatHandler cfg body completion tts).1.body ≠
        RespBody.chat greetingReply a := by
  have h : chatHandler cfg body completion tts =
      (⟨500, RespBody.err missingKeyError none⟩, none) := by
    simp [chatHandler, hkey]
  exact ⟨h, fun a => by simp [h]⟩

/-- Witness for C10: with no key and an empty message the response is the
500 missing-key error, not the greeting. -/
theorem chat_missing_key_guard_witness :
    chatHandler cfgNoKey none (CompletionOutcome.success none)
        TtsOutcome.exn =
      (⟨500, RespBody.err missingKeyError none⟩, none) ∧
    ∀ a, (chatHandler cfgNoKey none (CompletionOutcome.success none)
        TtsOutcome.exn).1.body ≠ RespBody.chat greetingReply a :=
  chat_missing_key_guard cfgNoKey none (CompletionOutcome.success none)
    TtsOutcome.exn (by decide)

/-- Claim C6: with a file present and the completion credential
configured, an unparseable CSV is answered 400 with the parse-failure
message and an empty parse result is answered 400 with the no-data
message; in both cases no completion-service call is made (the sent
payload is none). -/
theorem upload_rejects_bad_csv (cfg : Config)
    (completion : CompletionOutcome) (hkey : cfg.OPENAI_API_KEY ≠ []) :
    uploadHandler cfg true CsvParseOutcome.parseError completion =
        (⟨400, RespBody.err csvParseFailedError none⟩, none) ∧
    uploadHandler cfg true (CsvParseOutcome.parsed []) completion =
        (⟨400, RespBody.err noDataError none⟩, none) := by
  constructor <;> simp [uploadHandler, hkey]

/-- Witness for C6 at a concrete configuration and completion outcome. -/
theorem upload_rejects_bad_csv_witness :
    uploadHandler cfgFull true CsvParseOutcome.parseError
        (CompletionOutcome.success none) =
        (⟨400, RespBody.err csvParseFailedError none⟩, none) ∧
    uploadHandler cfgFull true (CsvParseOutcome.parsed [])
        (CompletionOutcome.success none) =
        (⟨400, RespBody.err noDataError none⟩, none) :=
  upload_rejects_bad_csv cfgFull (CompletionOutcome.success none)
    (by decide)

/-- Claim C7: in both revisions, a request with no Origin header passes
the gate and the handler runs; a request with an Origin header passes
exactly when the origin matches the allow-list (exact membership in the
current revision, a starts-with match in the earlier one); otherwise the
request is rejected by the cors middleware and the handler never runs. -/
theorem cors_origin_policy :
    (∀ r : HttpResp, gateExact none r = (GateOutcome.handled r, true)) ∧
    (∀ r : HttpResp, gateV0 none r = (GateOutcome.handled r, true)) ∧
    (∀ (o : Str) (r : HttpResp), ALLOWED_ORIGINS.contains o = true →
        gateExact (some o) r = (GateOutcome.handled r, true)) ∧
    (∀ (o : Str) (r : HttpResp), ALLOWED_ORIGINS.contains o = false →
        (gateExact (some o) r).2 = false ∧
        ∀ r' : HttpResp, (gateExact (some o) r).1 ≠ GateOutcome.handled r') ∧
    (∀ (o : Str) (r : HttpResp),
        ALLOWED_ORIGINS_V0.any (fun a => listStarts a o) = true →
        gateV0 (some o) r = (GateOutcome.handled r, true)) ∧
    (∀ (o : Str) (r : HttpResp),
        ALLOWED_ORIGINS_V0.any (fun a => listStarts a o) = false →
        (gateV0 (some o) r).2 = false ∧
        ∀ r' : HttpResp, (gateV0 (some o) r).1 ≠ GateOutcome.handled r') := by
  refine ⟨fun r => rfl, fun r => rfl, ?_, ?_, ?_, ?_⟩
  · intro o r h
    have h' : o ∈ ALLOWED_ORIGINS := by simpa using h
    simp [gateExact, corsAcceptExact, h']
  · intro o r h
    have h' : o ∉ ALLOWED_ORIGINS := by simpa using h
    constructor <;> simp [gateExact, corsAcceptExact, h']
  · intro o r h; simp [gateV0, corsAcceptV0, h]
  · intro o r h
    constructor <;> simp [gateV0, corsAcceptV0, h]

/-- Witness for C7: the origin https://evil.example is rejected by both
revisions without the handler running, and an allow-listed origin plus
the no-Origin case are accepted. -/
theorem cors_origin_policy_witness :
    (gateExact (some evilOrigin) okResp).2 = false ∧
    (gateV0 (some evilOrigin) okResp).2 = false ∧
    gateExact none okResp = (GateOutcome.handled okResp, true) ∧
    gateExact (some (("https://projectpilot.ai").data)) okResp =
      (GateOutcome.handled okResp, true) :=
  ⟨(cors_origin_policy.2.2.2.1 evilOrigin okResp (by decide)).1,
   (cors_origin_policy.2.2.2.2.2 evilOrigin okResp (by decide)).1,
   cors_origin_policy.1 okResp,
   cors_origin_policy.2.2.1 (("https://projectpilot.ai").data) okResp
     (by decide)⟩

/-- Claim C1: with the completion credential present, a non-empty
message, and a successful completion call, the chat response is status
200 carrying the completion's reply; its audioBase64 is null unless both
synthesis credentials are present and the synthesis call returned ok
(when it is the base64 encoding of the audio bytes); a synthesis HTTP
failure or exception never turns the response into an error. -/
theorem chat_synthesis_is_additive (cfg : Config) (body : Option ChatBody)
    (content : Option Str) (tts : TtsOutcome)
    (hkey : cfg.OPENAI_API_KEY ≠ []) (hmsg : extractMessage body ≠ []) :
    (chatHandler cfg body (CompletionOutcome.success content) tts).1.status
        = 200 ∧
    ∃ a, (chatHandler cfg body (CompletionOutcome.success content)
            tts).1.body = RespBody.chat (replyOf content) a ∧
      ((cfg.ELEVENLABS_API_KEY = [] ∨ cfg.ELEVENLABS_VOICE_ID = [] ∨
          ∀ audio, tts ≠ TtsOutcome.ok audio) → a = none) ∧
      (∀ audio, tts = TtsOutcome.ok audio → cfg.ELEVENLABS_API_KEY ≠ [] →
          cfg.ELEVENLABS_VOICE_ID ≠ [] →
          a = some (base64Encode audio)) := by
  simp only [chatHandler, if_neg hkey, if_neg hmsg]
  refine ⟨trivial, ?_⟩
  refine ⟨_, rfl, ?_, ?_⟩
  · rintro (hek | hev | hok)
    · simp [hek]
    · simp [hev]
    · cases tts with
      | ok audio => exact absurd rfl (hok audio)
      | httpError => simp
      | exn => simp
  · rintro audio rfl hek hev
    simp [hek, hev]

/-- Witness for C1: configured synthesis that fails with a non-ok status
still yields a 200 chat response with null audio. -/
theorem chat_synthesis_is_additive_witness :
    (chatHandler cfgFull chatBodyHello
        (CompletionOutcome.success (some (("Sure!").data)))
        TtsOutcome.httpError).1.status = 200 ∧
    ∃ a, (chatHandler cfgFull chatBodyHello
        (CompletionOutcome.success (some (("Sure!").data)))
        TtsOutcome.httpError).1.body =
          RespBody.chat (replyOf (some (("Sure!").data))) a ∧
      ((cfgFull.ELEVENLABS_API_KEY = [] ∨ cfgFull.ELEVENLABS_VOICE_ID = [] ∨
          ∀ audio, TtsOutcome.httpError ≠ TtsOutcome.ok audio) →
        a = none) ∧
      (∀ audio, TtsOutcome.httpError = TtsOutcome.ok audio →
          cfgFull.ELEVENLABS_API_KEY ≠ [] →
          cfgFull.ELEVENLABS_VOICE_ID ≠ [] →
          a = some (base64Encode audio)) :=
  chat_synthesis_is_additive cfgFull chatBodyHello
    (some (("Sure!").data)) TtsOutcome.httpError (by decide) (by decide)

/-- Claim C3: for every chat request whose message field is a string
that is non-empty after trimming (and with the credential configured),
the payload sent to the completion service has exactly one system-role
entry and exactly one user-role entry, and the user entry's content is
the trimmed input message. -/
theorem chat_payload_single_system_user (cfg : Config)
    (body : Option ChatBody) (completion : CompletionOutcome)
    (tts : TtsOutcome) (s : Str)
    (hkey : cfg.OPENAI_API_KEY ≠ []) (hraw : rawMessage body = some s)
    (hne : jsTrim s ≠ []) :
    ∃ payload, (chatHandler cfg body completion tts).2 = some payload ∧
      payload.messages.countP (fun m => m.role == ("system").data) = 1 ∧
      payload.messages.countP (fun m => m.role == ("user").data) = 1 ∧
      ∀ m ∈ payload.messages, m.role = ("user").data →
        m.content = jsTrim s := by
  have hm : extractMessage body = jsTrim s := by
    unfold extractMessage
    rw [hraw]
  have hb1 : ((("system").data : Str) == ("system").data) = true := by decide
  have hb2 : ((("user").data : Str) == ("system").data) = false := by decide
  have hb3 : ((("system").data : Str) == ("user").data) = false := by decide
  have hb4 : ((("user").data : Str) == ("user").data) = true := by decide
  refine ⟨⟨chatModel, (0.4 : ℚ),
      [⟨("system").data, chatSystemPrompt⟩, ⟨("user").data, jsTrim s⟩]⟩,
    ?_, ?_, ?_, ?_⟩
  · cases completion <;> simp [chatHandler, if_neg hkey, hm, hne]
  · simp [List.countP_cons, List.countP_nil, hb1, hb2]
  · simp [List.countP_cons, List.countP_nil, hb3, hb4]
  · intro m hmem hrole
    rcases List.mem_cons.1 hmem with h | h
    · subst h; exact absurd hrole (by decide)
    · rcases List.mem_cons.1 h with h | h
      · subst h; rfl
      · simp at h

/-- Witness for C3: a padded input message reaches the completion
payload trimmed, as the single user entry. -/
theorem chat_payload_single_system_user_witness :
    ∃ payload, (chatHandler cfgFull chatBodyPadded
        (CompletionOutcome.failure (("oops").data)) TtsOutcome.exn).2 =
          some payload ∧
      payload.messages.countP (fun m => m.role == ("system").data) = 1 ∧
      payload.messages.countP (fun m => m.role == ("user").data) = 1 ∧
      ∀ m ∈ payload.messages, m.role = ("user").data →
        m.content = jsTrim (("  Hello  ").data) :=
  chat_payload_single_system_user cfgFull chatBodyPadded
    (CompletionOutcome.failure (("oops").data)) TtsOutcome.exn
    (("  Hello  ").data) (by decide) (by decide) (by decide)

/-- Counterexample for C8: the claim that a body of the form
left: text s right: message s behave identically is false — with the
key configured and a successful completion, a body carrying only the
text field is answered with the greeting and no completion call, while
the same string in the message field drives a completion-backed reply. -/
theorem chat_text_alias_counterexample :
    chatHandler cfgFull (some ⟨none, some (JVal.str (("hi").data))⟩)
        (CompletionOutcome.success (some (("ok").data)))
        TtsOutcome.httpError ≠
      chatHandler cfgFull (some ⟨some (JVal.str (("hi").data)), none⟩)
        (CompletionOutcome.success (some (("ok").data)))
        TtsOutcome.httpError := by
  decide

/-- Claim C8 (amended): /api/chat has no alias for the message field:
the handler never reads the text field (two bodies differing only in
text behave identically), and a body carrying only a text string is
handled as a missing message — the status-200 greeting with
audioBase64 null and no completion call. -/
theorem chat_text_field_ignored (cfg : Config) (m t t' : Option JVal)
    (completion : CompletionOutcome) (tts : TtsOutcome)
    (hkey : cfg.OPENAI_API_KEY ≠ []) :
    chatHandler cfg (some ⟨m, t⟩) completion tts =
      chatHandler cfg (some ⟨m, t'⟩) completion tts ∧
    chatHandler cfg (some ⟨none, t⟩) completion tts =
      (⟨200, RespBody.chat greetingReply none⟩, none) := by
  constructor
  · rfl
  · simp [chatHandler, hkey, extractMessage, rawMessage]

/-- Witness for C8 (amended), at a concrete text-only body. -/
theorem chat_text_field_ignored_witness :
    chatHandler cfgFull (some ⟨none, some (JVal.str (("hey").data))⟩)
        (CompletionOutcome.success (some (("ok").data))) TtsOutcome.exn =
      chatHandler cfgFull (some ⟨none, none⟩)
        (CompletionOutcome.success (some (("ok").data))) TtsOutcome.exn ∧
    chatHandler cfgFull (some ⟨none, some (JVal.str (("hey").data))⟩)
        (CompletionOutcome.success (some (("ok").data))) TtsOutcome.exn =
      (⟨200, RespBody.chat greetingReply none⟩, none) :=
  chat_text_field_ignored cfgFull none (some (JVal.str (("hey").data)))
    none (CompletionOutcome.success (some (("ok").data))) TtsOutcome.exn
    (by decide)

/-- Counterexample for C4: a parsed CSV with 200 data rows whose column
header embeds a newline renders to a text that does not consist of 121
newline-separated lines — the header line is not sanitized, so the
claim's line count fails as stated. -/
theorem upload_truncation_counterexample :
    badRecords.length = 200 ∧
    (splitOnChar '\n' (compactCsvOf badRecords)).length ≠ 121 := by
  decide

/-- Claim C4 (amended): for every parsed CSV upload with 200 data rows
whose column headers contain no newline or carriage-return character,
only the first 120 rows are kept before rendering, and the rendered
text is exactly one header line followed by the 120 rendered data
lines — 121 newline-separated lines in total. -/
theorem upload_truncates_to_120_rows (records : List CsvRow)
    (h200 : records.length = 200)
    (hheaders : ∀ l ∈ ((records.take MAX_ROWS).headD []).map Prod.fst,
        ∀ c ∈ l, isNewlineChar c = false) :
    splitOnChar '\n' (compactCsvOf records) =
      List.intercalate ([','])
          (((records.take MAX_ROWS).headD []).map Prod.fst) ::
        (records.take MAX_ROWS).map
          (renderRow (((records.take MAX_ROWS).headD []).map Prod.fst)) ∧
    (splitOnChar '\n' (compactCsvOf records)).length = 121 := by
  have hcc : compactCsvOf records = List.intercalate (['\n'])
      (List.intercalate ([','])
          (((records.take MAX_ROWS).headD []).map Prod.fst) ::
        (records.take MAX_ROWS).map
          (renderRow (((records.take MAX_ROWS).headD []).map Prod.fst))) :=
    rfl
  have hsplit : splitOnChar '\n' (compactCsvOf records) =
      List.intercalate ([','])
          (((records.take MAX_ROWS).headD []).map Prod.fst) ::
        (records.take MAX_ROWS).map
          (renderRow (((records.take MAX_ROWS).headD []).map Prod.fst)) := by
    rw [splitOnChar, hcc]
    refine splitOnP_intercalate_parts (fun c => c == '\n') '\n' (by decide)
      _ (by simp) ?_
    intro l hl c hc
    rcases List.mem_cons.1 hl with h | h
    · subst h
      rcases mem_intercalate_parts ','
          (((records.take MAX_ROWS).headD []).map Prod.fst) c hc with
        h | ⟨l', hl', hcl⟩
      · subst h; decide
      · exact beq_newline_false_of_not_newline c (hheaders l' hl' c hcl)
    · obtain ⟨row, hrow, hrl⟩ := List.mem_map.1 h
      subst hrl
      rcases mem_intercalate_parts ',' _ c hc with h | ⟨l', hl', hcl⟩
      · subst h; decide
      · obtain ⟨hcol, hhc, hlc⟩ := List.mem_map.1 hl'
        subst hlc
        exact beq_newline_false_of_not_newline c
          (not_newline_mem_sanitizeCell _ c hcl)
  refine ⟨hsplit, ?_⟩
  rw [hsplit]
  simp [List.length_take, h200, MAX_ROWS]

/-- Witness for C4 (amended): 200 one-column records with a plain header
render to the header line followed by the 120 kept rendered rows. -/
theorem upload_truncates_to_120_rows_witness :
    splitOnChar '\n' (compactCsvOf goodRecords) =
      List.intercalate ([','])
          (((goodRecords.take MAX_ROWS).headD []).map Prod.fst) ::
        (goodRecords.take MAX_ROWS).map
          (renderRow (((goodRecords.take MAX_ROWS).headD []).map
            Prod.fst)) ∧
    (splitOnChar '\n' (compactCsvOf goodRecords)).length = 121 :=
  upload_truncates_to_120_rows goodRecords (by decide) (by decide)

/-- Claim C5: the rendered line of every retained row splits at commas
back into the per-column cells in header order; each rendered cell is
the original cell value with every maximal run of newline and
carriage-return characters collapsed to one space and then every comma
replaced by a semicolon, and the rendered line contains no newline, so
a cell holding both a comma and an embedded newline stays on a single
rendered line in its column position. -/
theorem csv_cell_rendering (headers : List Str) (row : CsvRow)
    (hne : headers ≠ []) :
    splitOnChar ',' (renderRow headers row) =
      headers.map (fun h => sanitizeCell (cellOf row h)) ∧
    (∀ c ∈ renderRow headers row, isNewlineChar c = false) ∧
    (∀ s, ∀ c ∈ sanitizeCell s, (c == ',') = false) ∧
    ∀ s, sanitizeCell s = commasToSemicolons (specCollapse s) := by
  refine ⟨?_, ?_, fun s => not_comma_mem_sanitizeCell s, fun s => ?_⟩
  · rw [splitOnChar, renderRow]
    refine splitOnP_intercalate_parts (fun c => c == ',') ',' (by decide)
      _ (by simpa using hne) ?_
    intro l hl c hc
    obtain ⟨h, hh, hlh⟩ := List.mem_map.1 hl
    subst hlh
    exact not_comma_mem_sanitizeCell _ c hc
  · intro c hc
    rw [renderRow] at hc
    rcases mem_intercalate_parts ',' _ c hc with h | ⟨l', hl', hcl⟩
    · subst h; decide
    · obtain ⟨h, hh, hlh⟩ := List.mem_map.1 hl'
      subst hlh
      exact not_newline_mem_sanitizeCell _ c hcl
  · rw [sanitizeCell, collapseNewlineRuns_eq_specCollapse]

/-- Witness for C5: a cell holding a comma and a doubled newline renders
as a single comma-free field with the comma a semicolon and the newline
run one space. -/
theorem csv_cell_rendering_witness :
    splitOnChar ',' (renderRow demoHeaders demoRow) =
      demoHeaders.map (fun h => sanitizeCell (cellOf demoRow h)) ∧
    (∀ c ∈ renderRow demoHeaders demoRow, isNewlineChar c = false) ∧
    (∀ s, ∀ c ∈ sanitizeCell s, (c == ',') = false) ∧
    ∀ s, sanitizeCell s = commasToSemicolons (specCollapse s) :=
  csv_cell_rendering demoHeaders demoRow (by decide)
